import Mathlib

/-
Verification of the flashcard pipeline of `backend/main.py` (YouTube
language-learner backend): term normalization (`get_base_term`), duplicate
checking against the AnkiConnect deck service (`check_duplicates`), deck
submission (`send_to_anki`), and the model-response parsing step of
`generate_flashcards`.

External collaborators (the spaCy tokenizer/lemmatizer, Python's `json`
decoder, and the HTTP transport) are modelled as explicit parameters: the
deck service's reply is an input of each embedded endpoint, and the calls
the endpoint would issue are returned alongside its outcome.
-/

namespace YTLearner

/-! ### Python string primitives

`str.lower`, `str.strip`, `str.join` and `str.replace` are modelled
character-list-wise (ASCII case folding, standard whitespace), so that every
definition evaluates inside the kernel. -/

/-- Python `s.lower()` (ASCII case folding). -/
def pyLower (s : String) : String :=
  String.mk (s.data.map Char.toLower)

/-- Python `s.strip()`: drop leading and trailing whitespace. -/
def pyStrip (s : String) : String :=
  String.mk (((s.data.dropWhile Char.isWhitespace).reverse.dropWhile
    Char.isWhitespace).reverse)

/-- Python `sep.join(l)`. -/
def pyJoin (sep : String) : List String → String
  | [] => ""
  | [x] => x
  | x :: xs => x ++ sep ++ pyJoin sep xs

/-- One pass of Python `s.replace(pat, rep)` over a character list, with
explicit fuel (the callers always pass the list's length, which suffices:
each step consumes at least one character when `pat` is non-empty, and the
embedded code only ever replaces the non-empty code-fence markers). -/
def replaceFuel (pat rep : List Char) : Nat → List Char → List Char
  | _, [] => []
  | 0, l => l
  | fuel + 1, c :: rest =>
    if pat ≠ [] ∧ List.isPrefixOf pat (c :: rest) then
      rep ++ replaceFuel pat rep fuel (List.drop pat.length (c :: rest))
    else
      c :: replaceFuel pat rep fuel rest

/-- Python `s.replace(pat, rep)` for non-empty `pat`: replace every
non-overlapping occurrence, left to right. -/
def pyReplace (s pat rep : String) : String :=
  String.mk (replaceFuel pat.data rep.data s.data.length s.data)

/-! ### Constants of `backend/main.py` -/

def ANKI_CONNECT_URL : String := "http://localhost:8765"

def DECK_NAME : String := "ENGLISH-A2"

def MODEL_NAME : String := "YTLearner-Advanced"

/-- The irregular-verb exception set of `backend/main.py` (a Python `set`
of lower-case forms). -/
def IRREGULAR_VERBS : List String :=
  ["be", "was", "were", "been", "is", "are", "am",
   "buy", "bought",
   "go", "went", "gone",
   "do", "did", "done",
   "have", "had",
   "make", "made",
   "say", "said",
   "see", "saw", "seen",
   "take", "took", "taken",
   "get", "got", "gotten",
   "think", "thought",
   "know", "knew", "known",
   "come", "came",
   "find", "found",
   "give", "gave", "given",
   "tell", "told"]

/-! ### The external spaCy pipeline

`nlp(text)` yields a sequence of tokens, each with a surface form
(`token.text`) and a lemma (`token.lemma_`).  The library is external to the
repository, so it is a parameter of the embedding: a tokenizer producing the
surface forms and a lemmatizer mapping each surface form to its lemma. -/

structure NLP where
  tokenize : String → List String
  lemmaOf : String → String

/-- The per-token step of `get_base_term`'s list comprehension:
`token.text if token.text in IRREGULAR_VERBS else token.lemma_`. -/
def lemmaStep (nlp : NLP) (tok : String) : String :=
  if tok ∈ IRREGULAR_VERBS then tok else nlp.lemmaOf tok

/-- `get_base_term` of `backend/main.py` (lines 121-137). -/
def get_base_term (nlp : NLP) (term : String) : String :=
  let lower_term := pyStrip (pyLower term)
  if lower_term ∈ IRREGULAR_VERBS then
    lower_term
  else
    let lemmas := (nlp.tokenize lower_term).map (lemmaStep nlp)
    pyJoin " " lemmas

/-! ### Data model -/

/-- Pydantic model `GeneratedFlashcard` of `backend/main.py`. -/
structure GeneratedFlashcard where
  english_sentence : String
  portuguese_translation : String
  term_translation : String
deriving DecidableEq

/-- Python truthiness of `response.get("error")`: an absent (`None`) or
empty-string error is falsy. -/
def errTruthy : Option String → Bool
  | none => false
  | some s => !(s == "")

/-- An AnkiConnect HTTP exchange, seen from the caller: either the transport
raises `requests.exceptions.RequestException` (service unreachable, bad
status), or a JSON body with an `error` field and a `result` payload comes
back. -/
inductive AnkiHttp (α : Type) where
  | transportError
  | response (error : Option String) (result : α)

/-! ### `check_duplicates` (lines 283-337) -/

/-- One `findNotes` action of an AnkiConnect `multi` payload. -/
structure FindAction where
  query : String
deriving DecidableEq

/-- The duplicate-lookup key built inside `check_duplicates`'s loop:
`f"{base_term}({card.term_translation})"`. -/
def check_dup_unique_id (nlp : NLP) (words : List String)
    (card : GeneratedFlashcard) : String :=
  get_base_term nlp (pyJoin " " words) ++ "(" ++ card.term_translation ++ ")"

/-- Action 1 of `check_duplicates`: find notes by `UniqueID`. -/
def find_unique_id_action (nlp : NLP) (words : List String)
    (card : GeneratedFlashcard) : FindAction :=
  ⟨"deck:\"" ++ DECK_NAME ++ "\" UniqueID:\"" ++
    check_dup_unique_id nlp words card ++ "\""⟩

/-- Action 2 of `check_duplicates`: find `Basic` notes whose `Front` field
is the normalized term. -/
def find_basic_action (nlp : NLP) (words : List String) : FindAction :=
  ⟨"deck:\"" ++ DECK_NAME ++ "\" note:Basic Front:\"" ++
    get_base_term nlp (pyJoin " " words) ++ "\""⟩

/-- The two actions appended for one candidate in `check_duplicates`'s loop. -/
def card_actions (nlp : NLP) (words : List String)
    (card : GeneratedFlashcard) : List FindAction :=
  [find_unique_id_action nlp words card, find_basic_action nlp words]

/-- The `multi_actions` list of `check_duplicates`: two `findNotes` actions
per candidate, in candidate order. -/
def multi_actions (nlp : NLP) (words : List String)
    (flashcards : List GeneratedFlashcard) : List FindAction :=
  flashcards.flatMap (card_actions nlp words)

/-- Outcome of the `check_duplicates` endpoint: the `duplication_status`
list, or an uncaught Python exception (an `IndexError` when the deck
service's `result` array is shorter than the query list) surfacing as a
500 response. -/
inductive CheckOutcome where
  | ok (status : List (GeneratedFlashcard × Bool))
  | serverError
deriving DecidableEq

/-- The pairing loop of `check_duplicates`: candidate `i` consumes result
positions `2*i` and `2*i+1`; indexing past the end of `all_results` raises
`IndexError` (modelled as `none`). -/
def pair_duplicate_results :
    List GeneratedFlashcard → List (List Nat) →
    Option (List (GeneratedFlashcard × Bool))
  | [], _ => some []
  | card :: cards, r1 :: r2 :: rest =>
    (pair_duplicate_results cards rest).map
      (fun tail => (card, !r1.isEmpty || !r2.isEmpty) :: tail)
  | _ :: _, _ => none

/-- `check_duplicates` of `backend/main.py` (lines 283-337).  Returns the
endpoint's outcome together with the list of HTTP calls issued (always
exactly one `multi` post to AnkiConnect, made before any branching on the
reply). -/
def check_duplicates (nlp : NLP) (words : List String)
    (flashcards : List GeneratedFlashcard)
    (reply : AnkiHttp (List (List Nat))) :
    CheckOutcome × List (String × List FindAction) :=
  let actions := multi_actions nlp words flashcards
  let outcome :=
    match reply with
    | .transportError =>
      CheckOutcome.ok (flashcards.map (fun c => (c, false)))
    | .response error result =>
      if errTruthy error then
        CheckOutcome.ok (flashcards.map (fun c => (c, false)))
      else
        match pair_duplicate_results flashcards result with
        | some status => CheckOutcome.ok status
        | none => CheckOutcome.serverError
  (outcome, [(ANKI_CONNECT_URL, actions)])

/-! ### `send_to_anki` (lines 339-392) -/

/-- A note as built by `send_to_anki` for the AnkiConnect `addNotes` call. -/
structure AnkiNote where
  deckName : String
  modelName : String
  UniqueID : String
  Term : String
  Meaning : String
  ExampleSentence : String
  ExampleTranslation : String
  tags : List String
deriving DecidableEq

/-- The note built for one candidate in `send_to_anki`'s loop; the
`UniqueID` field is `f"{base_term}({card.term_translation})"`. -/
def anki_note (nlp : NLP) (words : List String)
    (card : GeneratedFlashcard) : AnkiNote :=
  { deckName := DECK_NAME
    modelName := MODEL_NAME
    UniqueID := get_base_term nlp (pyJoin " " words) ++ "(" ++
      card.term_translation ++ ")"
    Term := get_base_term nlp (pyJoin " " words)
    Meaning := card.term_translation
    ExampleSentence := card.english_sentence
    ExampleTranslation := card.portuguese_translation
    tags := ["youtube_learner"] }

/-- A Python exception escaping the `try` body of `send_to_anki`: either a
`requests.exceptions.RequestException` from the transport, or an
`HTTPException(status_code, detail)` raised inside the body. -/
inductive PyExc where
  | requestException
  | httpExc (status_code : Nat) (detail : String)
deriving DecidableEq

/-- Outcome of the `send_to_anki` endpoint: a JSON `{message}` body, or an
`HTTPException` with a status code and detail string. -/
inductive SendOutcome where
  | ok (message : String)
  | httpError (status : Nat) (detail : String)
deriving DecidableEq

/-- The `try` body of `send_to_anki` (lines 368-387): posts the notes, then
checks the deck service's `error` field and counts `null` entries in its
`result` array.  Each `null` is a failed note; `raise HTTPException`
inside the body is modelled as an `Except.error`. -/
def send_body (notes : List AnkiNote) (reply : AnkiHttp (List (Option Nat))) :
    Except PyExc String :=
  match reply with
  | .transportError => .error .requestException
  | .response error result =>
    if errTruthy error then
      .error (.httpExc 400 ("Erro do AnkiConnect: " ++ error.getD ""))
    else
      let errors_found := result.filter (fun item => item.isNone)
      if !errors_found.isEmpty then
        let success_count : Int :=
          (notes.length : Int) - (errors_found.length : Int)
        let error_message :=
          toString errors_found.length ++ " de " ++ toString notes.length ++
            " cartões falharam."
        let error_message :=
          if 0 < success_count then
            error_message ++ " " ++ toString success_count ++
              " foram adicionados com sucesso."
          else
            error_message
        .error (.httpExc 400 error_message)
      else
        .ok (toString notes.length ++
          " flashcards foram enviados para o Anki com sucesso!")

/-- `send_to_anki` of `backend/main.py` (lines 339-392).  The early
"nothing to add" return precedes the HTTP call.  An `HTTPException` raised
inside the `try` body is not a `RequestException`, so it is caught by the
function's own `except Exception` clause and re-raised as
`HTTPException(500, f"Ocorreu um erro inesperado: {str(e)}")`, where
`str` of an `HTTPException` is `f"{status_code}: {detail}"`.  Returns the
outcome together with the list of `addNotes` calls issued. -/
def send_to_anki (nlp : NLP) (words : List String)
    (flashcards : List GeneratedFlashcard)
    (reply : AnkiHttp (List (Option Nat))) :
    SendOutcome × List (String × List AnkiNote) :=
  let notes_to_add := flashcards.map (anki_note nlp words)
  if notes_to_add.isEmpty then
    (SendOutcome.ok "Nenhum card novo para adicionar.", [])
  else
    let outcome :=
      match send_body notes_to_add reply with
      | .ok message => SendOutcome.ok message
      | .error .requestException =>
        SendOutcome.httpError 503
          "Conexão com o Anki falhou. Verifique se o Anki está aberto e o add-on AnkiConnect está instalado."
      | .error (.httpExc status_code detail) =>
        SendOutcome.httpError 500
          ("Ocorreu um erro inesperado: " ++ toString status_code ++ ": " ++
            detail)
    (outcome, [(ANKI_CONNECT_URL, notes_to_add)])

/-! ### Model-response parsing (lines 193-205 of `generate_flashcards`) -/

/-- A decoded JSON value, as produced by the external `json.loads`. -/
inductive JsonValue where
  | null
  | bool (b : Bool)
  | num (n : Int)
  | str (s : String)
  | arr (items : List JsonValue)
  | obj (fields : List (String × JsonValue))

/-- The cleaning step of `generate_flashcards`:
`response.text.strip().replace("```json", "").replace("```", "").strip()`. -/
def clean_model_response (raw : String) : String :=
  pyStrip (pyReplace (pyReplace (pyStrip raw) "```json" "") "```" "")

/-- The detail string of the `HTTPException(500, ...)` raised on
`json.JSONDecodeError`. -/
def invalidModelResponseMsg : String :=
  "Erro ao decodificar a resposta da IA. A resposta não foi um JSON válido."

/-- The parsing step of `generate_flashcards` (lines 196-203): clean the raw
text, decode it with the external JSON decoder (`decode s = none` models
`json.loads` raising `JSONDecodeError`), and return whatever value was
decoded; only the decode error is caught and translated. -/
def parse_response (decode : String → Option JsonValue) (raw : String) :
    Except String JsonValue :=
  match decode (clean_model_response raw) with
  | none => .error invalidModelResponseMsg
  | some v => .ok v

/-- Built from the spec's words, for comparison with the code: the decoded
value "is a list of objects each containing the keys `english_sentence`,
`portuguese_translation` and `term_translation`". -/
def specIsCardList (v : JsonValue) : Bool :=
  match v with
  | .arr items =>
    items.all (fun item =>
      match item with
      | .obj fields =>
        (["english_sentence", "portuguese_translation",
          "term_translation"] : List String).all
          (fun key => fields.any (fun kv => kv.1 == key))
      | _ => false)
  | _ => false

/-- The external `json.loads`, pinned at the single input probed by the
counterexample below: `json.loads("[1, 2]")` is the array `[1, 2]`. -/
def jsonLoadsProbe : String → Option JsonValue :=
  fun s => if s = "[1, 2]" then some (.arr [.num 1, .num 2]) else none

/-! ### Concrete instances used by the witnesses -/

/-- Split a character list on spaces (accumulator-style). -/
def splitCh : List Char → List Char → List (List Char)
  | [], cur => [cur.reverse]
  | c :: rest, cur =>
    if c = ' ' then cur.reverse :: splitCh rest [] else splitCh rest (c :: cur)

/-- A concrete whitespace tokenizer standing in for the external spaCy
tokenizer in the witnesses. -/
def wTokenize (s : String) : List String :=
  ((splitCh s.data []).filter (fun l => !l.isEmpty)).map String.mk

/-- A concrete, well-behaved NLP pipeline for the witnesses: whitespace
tokenization, identity lemmatizer. -/
def wNLP : NLP := ⟨wTokenize, fun s => s⟩

/-- A concrete candidate flashcard for the witnesses. -/
def wCard : GeneratedFlashcard :=
  ⟨"I <b>went</b> home.", "Eu <b>fui</b> para casa.", "fui"⟩

/-- A concrete deck-service answer function for the witnesses: one note
matches the shared `Basic` query, nothing else matches. -/
def wAnswers : String → List Nat :=
  fun q => if q = (find_basic_action wNLP ["go"]).query then [7] else []

/-! ### Helper lemmas -/

/-- Unfolding equation of `get_base_term`. -/
theorem get_base_term_eq (nlp : NLP) (s : String) :
    get_base_term nlp s =
      if pyStrip (pyLower s) ∈ IRREGULAR_VERBS then pyStrip (pyLower s)
      else pyJoin " " ((nlp.tokenize (pyStrip (pyLower s))).map (lemmaStep nlp)) :=
  rfl

/-- `multi_actions` contributes exactly two actions per candidate. -/
theorem multi_actions_length (nlp : NLP) (words : List String) :
    ∀ flashcards : List GeneratedFlashcard,
      (multi_actions nlp words flashcards).length = 2 * flashcards.length := by
  intro flashcards
  induction flashcards with
  | nil => rfl
  | cons card cards ih =>
    simp only [multi_actions, List.flatMap_cons, card_actions] at ih ⊢
    simp only [List.length_append, List.length_cons, List.length_nil, ih]
    omega

/-- The action at position `2*i` of `multi_actions` is candidate `i`'s
`UniqueID` lookup, and the one at `2*i+1` is the shared `Basic` lookup. -/
theorem multi_actions_getElem (nlp : NLP) (words : List String) :
    ∀ (flashcards : List GeneratedFlashcard) (i : Nat) (c : GeneratedFlashcard),
      flashcards[i]? = some c →
      (multi_actions nlp words flashcards)[2 * i]? =
        some (find_unique_id_action nlp words c) ∧
      (multi_actions nlp words flashcards)[2 * i + 1]? =
        some (find_basic_action nlp words) := by
  intro flashcards
  induction flashcards with
  | nil => intro i c h; simp at h
  | cons card cards ih =>
    intro i c h
    have hm : multi_actions nlp words (card :: cards) =
        find_unique_id_action nlp words card ::
          find_basic_action nlp words :: multi_actions nlp words cards := by
      simp [multi_actions, card_actions]
    cases i with
    | zero =>
      simp only [List.getElem?_cons_zero, Option.some.injEq] at h
      subst h
      rw [hm]
      exact ⟨by norm_num, by norm_num⟩
    | succ j =>
      simp only [List.getElem?_cons_succ] at h
      obtain ⟨h1, h2⟩ := ih j c h
      rw [hm]
      constructor
      · have e1 : 2 * (j + 1) = (2 * j + 1) + 1 := by omega
        rw [e1, List.getElem?_cons_succ, List.getElem?_cons_succ]
        exact h1
      · have e2 : 2 * (j + 1) + 1 = ((2 * j + 1) + 1) + 1 := by omega
        rw [e2, List.getElem?_cons_succ, List.getElem?_cons_succ]
        exact h2

/-- When the deck service returns at least `2 n` results, the pairing loop
succeeds and candidate `i`'s flag comes from positions `2*i` and `2*i+1`. -/
theorem pair_duplicate_results_spec :
    ∀ (flashcards : List GeneratedFlashcard) (result : List (List Nat)),
      2 * flashcards.length ≤ result.length →
      ∃ sts, pair_duplicate_results flashcards result = some sts ∧
        sts.length = flashcards.length ∧
        ∀ i c, flashcards[i]? = some c → ∃ r1 r2,
          result[2 * i]? = some r1 ∧ result[2 * i + 1]? = some r2 ∧
          sts[i]? = some (c, (!r1.isEmpty || !r2.isEmpty)) := by
  intro flashcards
  induction flashcards with
  | nil =>
    intro result h
    exact ⟨[], rfl, rfl, by intro i c hc; simp at hc⟩
  | cons card cards ih =>
    intro result h
    rcases result with _ | ⟨r1, _ | ⟨r2, rest⟩⟩
    · simp at h
    · simp at h; omega
    · have hlen : 2 * cards.length ≤ rest.length := by
        simp at h ⊢; omega
      obtain ⟨sts, hp, hl, hi⟩ := ih rest hlen
      refine ⟨(card, !r1.isEmpty || !r2.isEmpty) :: sts, ?_, by simp [hl], ?_⟩
      · simp [pair_duplicate_results, hp]
      · intro i c hc
        cases i with
        | zero =>
          simp only [List.getElem?_cons_zero, Option.some.injEq] at hc
          subst hc
          exact ⟨r1, r2, by norm_num, by norm_num, by simp⟩
        | succ j =>
          simp only [List.getElem?_cons_succ] at hc
          obtain ⟨s1, s2, h1, h2, h3⟩ := hi j c hc
          refine ⟨s1, s2, ?_, ?_, ?_⟩
          · have e1 : 2 * (j + 1) = (2 * j + 1) + 1 := by omega
            rw [e1, List.getElem?_cons_succ, List.getElem?_cons_succ]
            exact h1
          · have e2 : 2 * (j + 1) + 1 = ((2 * j + 1) + 1) + 1 := by omega
            rw [e2, List.getElem?_cons_succ, List.getElem?_cons_succ]
            exact h2
          · simpa using h3

/-- Whatever the deck service's `result` array, a successful pairing keeps
the candidates themselves, in order. -/
theorem pair_duplicate_results_map_fst :
    ∀ (flashcards : List GeneratedFlashcard) (result : List (List Nat))
      (sts : List (GeneratedFlashcard × Bool)),
      pair_duplicate_results flashcards result = some sts →
      sts.map Prod.fst = flashcards := by
  intro flashcards
  induction flashcards with
  | nil =>
    intro result sts h
    simp only [pair_duplicate_results, Option.some.injEq] at h
    subst h; rfl
  | cons card cards ih =>
    intro result sts h
    rcases result with _ | ⟨r1, _ | ⟨r2, rest⟩⟩
    · simp [pair_duplicate_results] at h
    · simp [pair_duplicate_results] at h
    · simp only [pair_duplicate_results, Option.map_eq_some'] at h
      obtain ⟨tail, hp, rfl⟩ := h
      simp [ih rest tail hp]

/-- Projecting the candidate back out of the all-false status list. -/
theorem map_fst_map_pair (l : List GeneratedFlashcard) (b : Bool) :
    (l.map (fun c => (c, b))).map Prod.fst = l := by
  induction l with
  | nil => rfl
  | cons x xs ih => simp [ih]

/-- When the deck service's answers are a function of the query string, the
pairing loop yields, for each candidate, the pair of answers to its two
queries. -/
theorem pair_duplicate_results_answers (nlp : NLP) (words : List String)
    (answers : String → List Nat) :
    ∀ flashcards : List GeneratedFlashcard,
      pair_duplicate_results flashcards
        ((multi_actions nlp words flashcards).map (fun a => answers a.query)) =
      some (flashcards.map (fun c =>
        (c, !(answers (find_unique_id_action nlp words c).query).isEmpty ||
            !(answers (find_basic_action nlp words).query).isEmpty))) := by
  intro flashcards
  induction flashcards with
  | nil => rfl
  | cons card cards ih =>
    have hm : (multi_actions nlp words (card :: cards)).map
        (fun a => answers a.query) =
        answers (find_unique_id_action nlp words card).query ::
        answers (find_basic_action nlp words).query ::
        (multi_actions nlp words cards).map (fun a => answers a.query) := by
      simp [multi_actions, card_actions]
    rw [hm]
    simp only [pair_duplicate_results, ih, Option.map_some', List.map_cons]

/-! ### Claim theorems -/

/-- C1: for every word list and candidate, the duplicate-lookup key that
`check_duplicates` queries against the deck service's `UniqueID` field is
exactly the `UniqueID` field value that `send_to_anki` writes for the same
words and candidate, namely
`get_base_term(joined words) ++ "(" ++ term_translation ++ ")"`. -/
theorem duplicate_key_check_write_agreement (nlp : NLP) (words : List String)
    (card : GeneratedFlashcard) :
    check_dup_unique_id nlp words card = (anki_note nlp words card).UniqueID ∧
    check_dup_unique_id nlp words card =
      get_base_term nlp (pyJoin " " words) ++ "(" ++ card.term_translation ++ ")" :=
  ⟨rfl, rfl⟩

/-- C2: if the deck service is unreachable or raises a transport error, or
the combined batch call reports an error, `check_duplicates` marks every
candidate `is_duplicate = false` and raises no error. -/
theorem check_duplicates_failure_all_false (nlp : NLP) (words : List String)
    (flashcards : List GeneratedFlashcard) (err : Option String)
    (result : List (List Nat)) :
    (check_duplicates nlp words flashcards .transportError).1 =
      .ok (flashcards.map (fun c => (c, false))) ∧
    (errTruthy err = true →
      (check_duplicates nlp words flashcards (.response err result)).1 =
        .ok (flashcards.map (fun c => (c, false)))) := by
  constructor
  · rfl
  · intro h
    simp [check_duplicates, h]

/-- C2 witness. -/
theorem check_duplicates_failure_all_false_witness :
    errTruthy (some "collection is not available") = true ∧
    (check_duplicates wNLP ["go"] [wCard]
        (.response (some "collection is not available") [])).1 =
      .ok ([wCard].map (fun c => (c, false))) :=
  ⟨by decide,
    (check_duplicates_failure_all_false wNLP ["go"] [wCard]
      (some "collection is not available") []).2 (by decide)⟩

/-- C3: `check_duplicates` issues exactly one combined call holding `2 n`
queries, two per candidate in candidate order, and on success candidate
`i`'s flag comes from result positions `2*i` and `2*i+1`: duplicate iff at
least one of the two is non-empty. -/
theorem check_duplicates_single_batched_call (nlp : NLP) (words : List String)
    (flashcards : List GeneratedFlashcard) (err : Option String)
    (result : List (List Nat))
    (Herr : errTruthy err = false)
    (Hlen : 2 * flashcards.length ≤ result.length) :
    (check_duplicates nlp words flashcards (.response err result)).2 =
      [(ANKI_CONNECT_URL, multi_actions nlp words flashcards)] ∧
    (multi_actions nlp words flashcards).length = 2 * flashcards.length ∧
    (∀ i c, flashcards[i]? = some c →
      (multi_actions nlp words flashcards)[2 * i]? =
        some (find_unique_id_action nlp words c) ∧
      (multi_actions nlp words flashcards)[2 * i + 1]? =
        some (find_basic_action nlp words)) ∧
    ∃ sts,
      (check_duplicates nlp words flashcards (.response err result)).1 = .ok sts ∧
      sts.length = flashcards.length ∧
      ∀ i c, flashcards[i]? = some c → ∃ r1 r2,
        result[2 * i]? = some r1 ∧ result[2 * i + 1]? = some r2 ∧
        sts[i]? = some (c, (!r1.isEmpty || !r2.isEmpty)) := by
  obtain ⟨sts, hp, hl, hi⟩ := pair_duplicate_results_spec flashcards result Hlen
  exact ⟨rfl, multi_actions_length nlp words flashcards,
    multi_actions_getElem nlp words flashcards,
    sts, by simp [check_duplicates, Herr, hp], hl, hi⟩

/-- C3 witness. -/
theorem check_duplicates_single_batched_call_witness :
    errTruthy none = false ∧
    2 * [wCard].length ≤ ([[1], []] : List (List Nat)).length ∧
    ((check_duplicates wNLP ["go"] [wCard] (.response none [[1], []])).2 =
      [(ANKI_CONNECT_URL, multi_actions wNLP ["go"] [wCard])] ∧
    (multi_actions wNLP ["go"] [wCard]).length = 2 * [wCard].length ∧
    (∀ i c, ([wCard] : List GeneratedFlashcard)[i]? = some c →
      (multi_actions wNLP ["go"] [wCard])[2 * i]? =
        some (find_unique_id_action wNLP ["go"] c) ∧
      (multi_actions wNLP ["go"] [wCard])[2 * i + 1]? =
        some (find_basic_action wNLP ["go"])) ∧
    ∃ sts,
      (check_duplicates wNLP ["go"] [wCard] (.response none [[1], []])).1 = .ok sts ∧
      sts.length = [wCard].length ∧
      ∀ i c, ([wCard] : List GeneratedFlashcard)[i]? = some c → ∃ r1 r2,
        ([[1], []] : List (List Nat))[2 * i]? = some r1 ∧
        ([[1], []] : List (List Nat))[2 * i + 1]? = some r2 ∧
        sts[i]? = some (c, (!r1.isEmpty || !r2.isEmpty))) :=
  ⟨by decide, by decide,
    check_duplicates_single_batched_call wNLP ["go"] [wCard] none [[1], []]
      (by decide) (by decide)⟩

/-- C8: with an empty candidate list, `send_to_anki` returns the
"nothing to add" message and issues no call to the deck service. -/
theorem send_to_anki_empty_no_call (nlp : NLP) (words : List String)
    (reply : AnkiHttp (List (Option Nat))) :
    send_to_anki nlp words [] reply =
      (.ok "Nenhum card novo para adicionar.", []) :=
  rfl

/-- C9: whatever branch of `check_duplicates` produced it, the returned
`duplication_status` list carries exactly the input candidates, in input
order, with each candidate's fields unchanged. -/
theorem check_duplicates_preserves_candidates (nlp : NLP) (words : List String)
    (flashcards : List GeneratedFlashcard)
    (reply : AnkiHttp (List (List Nat)))
    (sts : List (GeneratedFlashcard × Bool))
    (calls : List (String × List FindAction))
    (H : check_duplicates nlp words flashcards reply = (.ok sts, calls)) :
    sts.map Prod.fst = flashcards ∧ sts.length = flashcards.length := by
  have hfst : sts.map Prod.fst = flashcards := by
    cases reply with
    | transportError =>
      have h1 := congrArg Prod.fst H
      simp only [check_duplicates, CheckOutcome.ok.injEq] at h1
      rw [← h1]
      exact map_fst_map_pair flashcards false
    | response error result =>
      by_cases he : errTruthy error
      · have h1 := congrArg Prod.fst H
        simp only [check_duplicates, he, if_true, CheckOutcome.ok.injEq] at h1
        rw [← h1]
        exact map_fst_map_pair flashcards false
      · cases hp : pair_duplicate_results flashcards result with
        | none =>
          have h1 := congrArg Prod.fst H
          simp [check_duplicates, he, hp] at h1
        | some sts2 =>
          have h1 := congrArg Prod.fst H
          simp only [check_duplicates, he, hp, Bool.false_eq_true, if_false,
            CheckOutcome.ok.injEq] at h1
          rw [← h1]
          exact pair_duplicate_results_map_fst flashcards result sts2 hp
  refine ⟨hfst, ?_⟩
  rw [← hfst, List.length_map]

/-- C9 witness. -/
theorem check_duplicates_preserves_candidates_witness :
    check_duplicates wNLP ["go"] [wCard] (.response none [[1], []]) =
      (.ok [(wCard, true)], [(ANKI_CONNECT_URL, multi_actions wNLP ["go"] [wCard])]) ∧
    ([(wCard, true)] : List (GeneratedFlashcard × Bool)).map Prod.fst = [wCard] ∧
    ([(wCard, true)] : List (GeneratedFlashcard × Bool)).length = [wCard].length :=
  ⟨by decide,
    check_duplicates_preserves_candidates wNLP ["go"] [wCard]
      (.response none [[1], []]) [(wCard, true)]
      [(ANKI_CONNECT_URL, multi_actions wNLP ["go"] [wCard])] (by decide)⟩

/-- C10: the second existence query is built from the normalized term alone,
so it is the same action for every candidate; consequently, when the deck
service's answers are a function of the query and the shared `Basic` query's
answer is non-empty, every candidate of the request is marked duplicate,
whatever its `term_translation`. -/
theorem check_duplicates_shared_basic_query (nlp : NLP) (words : List String)
    (flashcards : List GeneratedFlashcard) (answers : String → List Nat)
    (err : Option String)
    (Herr : errTruthy err = false)
    (Hbasic : answers (find_basic_action nlp words).query ≠ []) :
    (∀ c1 c2 : GeneratedFlashcard,
      (card_actions nlp words c1)[1]? = (card_actions nlp words c2)[1]?) ∧
    ∃ sts,
      (check_duplicates nlp words flashcards
        (.response err ((multi_actions nlp words flashcards).map
          (fun a => answers a.query)))).1 = .ok sts ∧
      sts.length = flashcards.length ∧
      ∀ p ∈ sts, p.2 = true := by
  have hp := pair_duplicate_results_answers nlp words answers flashcards
  refine ⟨fun c1 c2 => rfl, flashcards.map (fun c =>
      (c, !(answers (find_unique_id_action nlp words c).query).isEmpty ||
          !(answers (find_basic_action nlp words).query).isEmpty)),
    by simp [check_duplicates, Herr, hp], by simp, ?_⟩
  intro p hpmem
  have hb : (answers (find_basic_action nlp words).query).isEmpty = false := by
    simp [List.isEmpty_iff, Hbasic]
  obtain ⟨c, _, rfl⟩ := List.mem_map.mp hpmem
  simp [hb]

/-- C10 witness. -/
theorem check_duplicates_shared_basic_query_witness :
    errTruthy none = false ∧
    wAnswers (find_basic_action wNLP ["go"]).query ≠ [] ∧
    ((∀ c1 c2 : GeneratedFlashcard,
      (card_actions wNLP ["go"] c1)[1]? = (card_actions wNLP ["go"] c2)[1]?) ∧
    ∃ sts,
      (check_duplicates wNLP ["go"] [wCard]
        (.response none ((multi_actions wNLP ["go"] [wCard]).map
          (fun a => wAnswers a.query)))).1 = .ok sts ∧
      sts.length = [wCard].length ∧
      ∀ p ∈ sts, p.2 = true) :=
  ⟨by decide, by decide,
    check_duplicates_shared_basic_query wNLP ["go"] [wCard] wAnswers none
      (by decide) (by decide)⟩

/-- C4 counterexample: `"[1, 2]"` decodes (as `json.loads` does) to an array
that is not a list of objects with the three required keys, yet the parsing
step returns it as a success instead of failing with `InvalidModelResponse`:
the code never validates the decoded value's shape. -/
theorem parse_response_no_shape_validation :
    parse_response jsonLoadsProbe "[1, 2]" = .ok (.arr [.num 1, .num 2]) ∧
    specIsCardList (.arr [.num 1, .num 2]) = false :=
  ⟨rfl, rfl⟩

/-- C4 amended: parsing fails with the `InvalidModelResponse` error kind
exactly when JSON decoding of the fence-stripped text fails; a successfully
decoded value is returned as-is without any shape validation; and a raw
decode exception is never propagated (the outcome is always either that
error or a success). -/
theorem parse_response_decode_only (decode : String → Option JsonValue)
    (raw : String) :
    (decode (clean_model_response raw) = none →
      parse_response decode raw = .error invalidModelResponseMsg) ∧
    (∀ v, decode (clean_model_response raw) = some v →
      parse_response decode raw = .ok v) ∧
    (parse_response decode raw = .error invalidModelResponseMsg ∨
      ∃ v, parse_response decode raw = .ok v) := by
  unfold parse_response
  cases h : decode (clean_model_response raw) <;> simp

/-- C4 witness. -/
theorem parse_response_decode_only_witness :
    jsonLoadsProbe (clean_model_response "this is not JSON") = none ∧
    parse_response jsonLoadsProbe "this is not JSON" =
      .error invalidModelResponseMsg :=
  ⟨rfl, (parse_response_decode_only jsonLoadsProbe "this is not JSON").1 rfl⟩

/-- C5: with three submitted notes and exactly one `null` among the three
per-note results, `send_to_anki` reports 1 failure out of 3 and 2 successes
in its message (carried by the re-wrapped `HTTPException`); and in general a
reply containing any `null` per-note result never yields the success
outcome. -/
theorem send_to_anki_counts_null_failures (nlp : NLP) (words : List String)
    (flashcards : List GeneratedFlashcard) (err : Option String)
    (result : List (Option Nat))
    (Herr : errTruthy err = false)
    (Hcards : flashcards.length = 3)
    (Hres : result.length = 3)
    (Hnulls : (result.filter (fun item => item.isNone)).length = 1) :
    (send_to_anki nlp words flashcards (.response err result)).1 =
      .httpError 500
        "Ocorreu um erro inesperado: 400: 1 de 3 cartões falharam. 2 foram adicionados com sucesso." ∧
    ∀ result2 : List (Option Nat),
      (result2.filter (fun item => item.isNone)).length ≠ 0 →
      ∀ m, (send_to_anki nlp words flashcards (.response err result2)).1 ≠
        SendOutcome.ok m := by
  have hne : (flashcards.map (anki_note nlp words)).isEmpty = false := by
    simp only [List.isEmpty_eq_false, ne_eq, List.map_eq_nil_iff]
    intro h
    rw [h] at Hcards
    simp at Hcards
  constructor
  · have hfe : ((result.filter (fun item => item.isNone)).isEmpty : Bool) = false := by
      simp only [List.isEmpty_eq_false, ne_eq]
      intro h
      rw [h] at Hnulls
      simp at Hnulls
    simp only [send_to_anki, hne, Bool.false_eq_true, if_false, send_body,
      Herr, hfe, Bool.not_false, if_true, List.length_map, Hcards, Hnulls]
    norm_num
    rfl
  · intro result2 h0 m
    have hfe2 : ((result2.filter (fun item => item.isNone)).isEmpty : Bool) = false := by
      simp only [List.isEmpty_eq_false, ne_eq]
      intro h
      rw [h] at h0
      simp at h0
    simp [send_to_anki, hne, send_body, Herr, hfe2]

/-- C5 witness. -/
theorem send_to_anki_counts_null_failures_witness :
    errTruthy none = false ∧
    ([wCard, wCard, wCard] : List GeneratedFlashcard).length = 3 ∧
    ([some 10, none, some 12] : List (Option Nat)).length = 3 ∧
    (([some 10, none, some 12] : List (Option Nat)).filter
      (fun item => item.isNone)).length = 1 ∧
    (send_to_anki wNLP ["go"] [wCard, wCard, wCard]
        (.response none [some 10, none, some 12])).1 =
      .httpError 500
        "Ocorreu um erro inesperado: 400: 1 de 3 cartões falharam. 2 foram adicionados com sucesso." :=
  ⟨by decide, by decide, by decide, by decide,
    (send_to_anki_counts_null_failures wNLP ["go"] [wCard, wCard, wCard] none
      [some 10, none, some 12] (by decide) (by decide) (by decide) (by decide)).1⟩

/-- C6: a term all of whose tokens are irregular-verb forms normalizes to
its lower-cased, trimmed self (given that joining the tokens with single
spaces reconstructs that lower-cased trimmed string, which is how the
tokenizer decomposes such a term). -/
theorem get_base_term_irregular_terms (nlp : NLP) (t : String)
    (Hall : ∀ tok ∈ nlp.tokenize (pyStrip (pyLower t)), tok ∈ IRREGULAR_VERBS)
    (Hjoin : pyJoin " " (nlp.tokenize (pyStrip (pyLower t))) =
      pyStrip (pyLower t)) :
    get_base_term nlp t = pyStrip (pyLower t) := by
  rw [get_base_term_eq nlp t]
  by_cases hm : pyStrip (pyLower t) ∈ IRREGULAR_VERBS
  · rw [if_pos hm]
  · rw [if_neg hm]
    have hmap : (nlp.tokenize (pyStrip (pyLower t))).map (lemmaStep nlp) =
        nlp.tokenize (pyStrip (pyLower t)) := by
      have h := List.map_congr_left
        (l := nlp.tokenize (pyStrip (pyLower t))) (f := lemmaStep nlp)
        (g := fun tok => tok)
        (fun tok htok => by simp [lemmaStep, Hall tok htok])
      simpa using h
    rw [hmap, Hjoin]

/-- C6 witness. -/
theorem get_base_term_irregular_terms_witness :
    (∀ tok ∈ wNLP.tokenize (pyStrip (pyLower "Go Went")),
      tok ∈ IRREGULAR_VERBS) ∧
    pyJoin " " (wNLP.tokenize (pyStrip (pyLower "Go Went"))) =
      pyStrip (pyLower "Go Went") ∧
    get_base_term wNLP "Go Went" = pyStrip (pyLower "Go Went") :=
  ⟨by decide, by decide,
    get_base_term_irregular_terms wNLP "Go Went" (by decide) (by decide)⟩

/-- C7: `get_base_term` is idempotent, given a well-behaved external
pipeline: the produced output is already lower-cased and trimmed,
re-tokenizing the output recovers the per-token normal forms, and the
lemmatizer is idempotent. -/
theorem get_base_term_idempotent (nlp : NLP) (t : String)
    (Hfix : pyStrip (pyLower (get_base_term nlp t)) = get_base_term nlp t)
    (Htok : nlp.tokenize (get_base_term nlp t) =
      (nlp.tokenize (pyStrip (pyLower t))).map (lemmaStep nlp))
    (Hlem : ∀ s, nlp.lemmaOf (nlp.lemmaOf s) = nlp.lemmaOf s) :
    get_base_term nlp (get_base_term nlp t) = get_base_term nlp t := by
  have hstep : ∀ s, lemmaStep nlp (lemmaStep nlp s) = lemmaStep nlp s := by
    intro s
    by_cases h1 : s ∈ IRREGULAR_VERBS
    · simp [lemmaStep, h1]
    · by_cases h2 : nlp.lemmaOf s ∈ IRREGULAR_VERBS
      · simp [lemmaStep, h1, h2]
      · simp [lemmaStep, h1, h2, Hlem s]
  rw [get_base_term_eq nlp (get_base_term nlp t), Hfix]
  by_cases hm2 : get_base_term nlp t ∈ IRREGULAR_VERBS
  · rw [if_pos hm2]
  · have hm : pyStrip (pyLower t) ∉ IRREGULAR_VERBS := by
      intro hc
      apply hm2
      rw [get_base_term_eq nlp t, if_pos hc]
      exact hc
    rw [if_neg hm2, Htok, List.map_map]
    have hmap : (nlp.tokenize (pyStrip (pyLower t))).map
          (lemmaStep nlp ∘ lemmaStep nlp) =
        (nlp.tokenize (pyStrip (pyLower t))).map (lemmaStep nlp) :=
      List.map_congr_left (fun a _ => hstep a)
    rw [hmap, get_base_term_eq nlp t, if_neg hm]

/-- C7 witness. -/
theorem get_base_term_idempotent_witness :
    pyStrip (pyLower (get_base_term wNLP "running")) =
      get_base_term wNLP "running" ∧
    wNLP.tokenize (get_base_term wNLP "running") =
      (wNLP.tokenize (pyStrip (pyLower "running"))).map (lemmaStep wNLP) ∧
    get_base_term wNLP (get_base_term wNLP "running") =
      get_base_term wNLP "running" :=
  ⟨by decide, by decide,
    get_base_term_idempotent wNLP "running" (by decide) (by decide)
      (fun s => rfl)⟩

end YTLearner
